import Mathlib

/-!
# Verification of the MCP daemons' tool-dispatch contract

This file gives a shallow embedding, in Lean 4, of the tool-invocation
dispatch layers of three daemons of the repository (the HTTP api-tester
server, the memory server and the PostgreSQL server), translated from
their JavaScript sources, together with theorems settling the frozen
claims about them.

Modelling conventions:
  * JavaScript exceptions are modelled with `Except`: a handler returns
    `Except JsError ToolResult`; a value `.error e` is a thrown error.
    A dispatcher that catches every handler error is a total function
    into `ToolResult`; a dispatcher that rethrows returns
    `Except McpError ToolResult`, where `.error` means the exception
    crossed the dispatch layer into the transport.
  * External systems (the HTTP client network, the sqlite library, the
    pg pool) are oracles: functions supplied as an environment record.
    Their answers are arbitrary; the daemon code translated here is
    everything around them.
  * Side effects on the external world (pool creation, pool teardown,
    SQL statements sent) are collected in explicit event lists.
  * Machine numbers are modelled as `Nat`/`Int`/`Rat`; none of the
    modelled code relies on overflow.
  * Single-quote characters appearing inside some source message
    templates are omitted from the modelled strings.
-/

/-- One content block of a tool response (every daemon only uses kind
`text`). -/
structure ContentBlock where
  type : String
  text : String
deriving DecidableEq

/-- The result envelope of a tool call: `isError` is `none` when the field
is absent in the JavaScript object literal. -/
structure ToolResult where
  content : List ContentBlock
  isError : Option Bool := none
deriving DecidableEq

/-- Error codes of the MCP SDK used by the daemons. -/
inductive ErrCode
  | methodNotFound
  | internalError
  | invalidParams
  | connectionFailed
deriving DecidableEq

/-- An `McpError` as thrown by the memory and PostgreSQL daemons. -/
structure McpError where
  code : ErrCode
  message : String
deriving DecidableEq

/-- A thrown JavaScript error: either an `McpError` or a plain `Error`
(only its `message` is observable by the dispatch layers). -/
inductive JsError
  | mcp (e : McpError)
  | plain (message : String)
deriving DecidableEq

/-- `error.message` of a thrown JavaScript error. -/
def JsError.message : JsError → String
  | .mcp e => e.message
  | .plain m => m

/-- A primitive JavaScript value as it appears in SQL parameter arrays. -/
inductive JsPrim
  | str (s : String)
  | num (n : Int)
  | boolean (b : Bool)
  | null
  | undef
deriving DecidableEq

/-- The slice of a declared tool schema that the claims mention: the tool
name and the names of its `required` parameters, in declaration order. -/
structure ToolDecl where
  name : String
  requiredParams : List String
deriving DecidableEq

/-! ## PostgreSQL daemon (source: the PostgreSQL MCP server)

State: the single `this.pool` field.  Pools are identified by a fresh
natural number handed out by `nextPoolId`. -/

/-- The mutable state of the PostgreSQL server object. -/
structure PgState where
  pool : Option Nat
  nextPoolId : Nat
deriving DecidableEq

/-- Externally visible effects of the PostgreSQL handlers. -/
inductive PgEvent
  | poolEnd (p : Nat)
  | poolCreate (p : Nat)
  | query (p : Nat) (sql : Option String) (params : List JsPrim)
deriving DecidableEq

/-- Outcome of a successful `client.query` as far as the handlers read
it: the row count and pre-rendered rows. -/
structure PgQueryResult where
  rowCount : Nat
  rows : List String
deriving DecidableEq

/-- One column descriptor of `create_table`. -/
structure PgColumn where
  name : String
  type : String
  constraints : Option String := none
deriving DecidableEq

/-- The raw `arguments` object of a PostgreSQL tool call; `none` models an
absent (undefined) field.  `whereClause` models the `where` property
(`where` is reserved in Lean). -/
structure PgArgs where
  host : Option String := none
  port : Option Nat := none
  database : Option String := none
  user : Option String := none
  password : Option String := none
  ssl : Option Bool := none
  query : Option String := none
  params : Option (List JsPrim) := none
  tableName : Option String := none
  columns : Option (List PgColumn) := none
  options : Option String := none
  operation : Option String := none
  data : Option (List (String × JsPrim)) := none
  whereClause : Option String := none
  whereParams : Option (List JsPrim) := none
  onConflict : Option String := none
  action : Option String := none
  schema : Option String := none
  cascade : Option Bool := none

/-- External world of the PostgreSQL daemon.  `connectOutcome p` is the
result of `pool.connect()` followed by the `SELECT NOW()` test on the
freshly created pool `p` (`.ok` carries the returned timestamp text).
`queryOutcome` answers `client.query(sql, params)`.  `tableInfoH` and
`getDatabaseInfoH` model the two read-only information handlers
abstractly (they only issue fixed catalog queries and format rows). -/
structure PgEnv where
  connectOutcome : Nat → Except String String
  queryOutcome : Option String → List JsPrim → Except String PgQueryResult
  tableInfoH : PgArgs → Option Nat → Except JsError ToolResult
  getDatabaseInfoH : Option Nat → Except JsError ToolResult

/-- `sanitizeIdentifier`s character test: the regex
`[a-zA-Z_]` for the first character. -/
def isIdentStart (c : Char) : Bool :=
  (('a' ≤ c) && (c ≤ 'z')) || (('A' ≤ c) && (c ≤ 'Z')) || (c = '_')

/-- The regex class `[a-zA-Z0-9_]` for the remaining characters. -/
def isIdentChar (c : Char) : Bool :=
  isIdentStart c || (('0' ≤ c) && (c ≤ '9'))

/-- Whether a string matches `^[a-zA-Z_][a-zA-Z0-9_]*$`. -/
def isValidIdentifier (s : String) : Bool :=
  match s.data with
  | [] => false
  | c :: rest => isIdentStart c && rest.all isIdentChar

/-- `sanitizeIdentifier(identifier)`: returns the identifier unchanged
when it matches the allow-list regex, throws a plain `Error` otherwise. -/
def sanitizeIdentifier (s : String) : Except JsError String :=
  if isValidIdentifier s then .ok s
  else .error (.plain (("Invalid identifier: ") ++ s))

/-- The `McpError` thrown by `checkConnection` when `this.pool` is null. -/
def noConnectionError : JsError :=
  .mcp ⟨.connectionFailed,
    ("No database connection. Please connect first using connect_database.")⟩

/-- `checkConnection()`. -/
def checkConnection (s : PgState) : Except JsError Unit :=
  match s.pool with
  | none => .error noConnectionError
  | some _ => .ok ()

/-- Success text of `connect_database`. -/
def connectOkText (cfg : PgArgs) (now : String) : String :=
  ("✅ Successfully connected to PostgreSQL database ") ++
    (cfg.database.getD ("undefined")) ++ (" at ") ++
    (cfg.host.getD ("localhost")) ++ (":") ++
    (toString (cfg.port.getD 5432)) ++
    ("\nConnection established at: ") ++ now

/-- `connectDatabase(config)`: if a pool is already active it is ended
first; then a new pool is created and its connection tested.  On test
failure an `McpError` is thrown, but `this.pool` keeps referring to the
new pool. -/
def connectDatabase (env : PgEnv) (cfg : PgArgs) (s : PgState) :
    Except JsError ToolResult × PgState × List PgEvent :=
  let closeEvents : List PgEvent :=
    match s.pool with
    | some p => [.poolEnd p]
    | none => []
  let newPool := s.nextPoolId
  let s' : PgState := ⟨some newPool, s.nextPoolId + 1⟩
  match env.connectOutcome newPool with
  | .ok now =>
      (.ok ⟨[⟨("text"), connectOkText cfg now⟩], none⟩, s',
        closeEvents ++ [.poolCreate newPool,
          .query newPool (some ("SELECT NOW()")) []])
  | .error m =>
      (.error (.mcp ⟨.connectionFailed,
          ("Failed to connect to database: ") ++ m⟩), s',
        closeEvents ++ [.poolCreate newPool])

/-- `disconnectDatabase()`. -/
def disconnectDatabase (s : PgState) :
    Except JsError ToolResult × PgState × List PgEvent :=
  match s.pool with
  | some p =>
      (.ok ⟨[⟨("text"),
          ("✅ Successfully disconnected from PostgreSQL database")⟩], none⟩,
        ⟨none, s.nextPoolId⟩, [.poolEnd p])
  | none =>
      (.ok ⟨[⟨("text"), ("⚠️ No database connection to close")⟩], none⟩,
        s, [])

/-- Success text of `execute_query`. -/
def queryOkText (r : PgQueryResult) : String :=
  ("📊 Query executed successfully\nRows affected: ") ++
    (toString r.rowCount) ++ ("\n\n") ++
    (if r.rows.length > 0 then
      ("📋 Results (") ++ toString r.rows.length ++ (" rows):\n") ++
        String.intercalate ("\n") r.rows
    else (""))

/-- `executeQuery(query, params = [])`: checks the connection (throwing
outside its own try block, so the `McpError` reaches the dispatcher
unwrapped), then sends the SQL; a driver error is wrapped in an
`InternalError` `McpError`. -/
def executeQuery (env : PgEnv) (q : Option String)
    (params : Option (List JsPrim)) (s : PgState) :
    Except JsError ToolResult × List PgEvent :=
  match s.pool with
  | none => (.error noConnectionError, [])
  | some p =>
    let ps := params.getD []
    match env.queryOutcome q ps with
    | .ok r => (.ok ⟨[⟨("text"), queryOkText r⟩], none⟩, [.query p q ps])
    | .error m =>
        (.error (.mcp ⟨.internalError, ("Query execution failed: ") ++ m⟩),
          [.query p q ps])

/-- `Array.prototype.map` with a throwing callback: the first thrown
error aborts the whole map. -/
def mapEx {α β : Type} (f : α → Except JsError β) : List α → Except JsError (List β)
  | [] => .ok []
  | a :: l =>
    match f a with
    | .error e => .error e
    | .ok b =>
      match mapEx f l with
      | .error e => .error e
      | .ok bs => .ok (b :: bs)

/-- One column definition string of `create_table`:
`` `${sanitizedName} ${col.type} ${col.constraints || ''}`.trim() ``. -/
def columnDef (c : PgColumn) : Except JsError String :=
  (sanitizeIdentifier c.name).map
    (fun n => (n ++ (" ") ++ c.type ++ (" ") ++ (c.constraints.getD (""))).trim)

/-- Success text of `create_table`. -/
def createOkText (tableName : Option String) (nCols : Nat) : String :=
  ("✅ Table ") ++ (tableName.getD ("undefined")) ++
    (" created successfully with ") ++ toString nCols ++ (" columns")

/-- The error wrapper of the `createTable` catch block. -/
def wrapCreateErr (e : JsError) : JsError :=
  .mcp ⟨.internalError, ("Failed to create table: ") ++ e.message⟩

/-- `createTable(tableName, columns, options = '')`.  The identifier
sanitisation happens inside the handler try block, before the pool is
asked for a client, so an invalid identifier aborts the call with no SQL
sent.  (A JavaScript `undefined` table name coerces to the string
`"undefined"` inside the regex test, which that string passes.) -/
def createTable (env : PgEnv) (tableName : Option String)
    (columns : Option (List PgColumn)) (options : Option String)
    (s : PgState) : Except JsError ToolResult × List PgEvent :=
  match s.pool with
  | none => (.error noConnectionError, [])
  | some p =>
    match sanitizeIdentifier (tableName.getD ("undefined")) with
    | .error e => (.error (wrapCreateErr e), [])
    | .ok tn =>
      match columns with
      | none =>
          (.error (wrapCreateErr (.plain ("Cannot read properties of undefined"))), [])
      | some cols =>
        match mapEx columnDef cols with
        | .error e => (.error (wrapCreateErr e), [])
        | .ok defs =>
          let base := ("CREATE TABLE ") ++ tn ++ (" (") ++
            String.intercalate (", ") defs ++ (")")
          let opts := options.getD ("")
          let q := if opts = ("") then base else base ++ (" ") ++ opts
          match env.queryOutcome (some q) [] with
          | .ok _ =>
              (.ok ⟨[⟨("text"), createOkText tableName cols.length⟩], none⟩,
                [.query p (some q) []])
          | .error m =>
              (.error (wrapCreateErr (.plain m)), [.query p (some q) []])

/-- The error wrapper of the `crudOperations` catch block (it wraps every
thrown error, `McpError`s included). -/
def wrapCrudErr (e : JsError) : JsError :=
  .mcp ⟨.internalError, ("CRUD operation failed: ") ++ e.message⟩

/-- Result text shared by the three CRUD branches. -/
def crudOkText (message : String) (r : PgQueryResult) : String :=
  message ++ ("\n\n") ++
    (if r.rows.length > 0 then
      ("📋 Affected rows:\n") ++ String.intercalate ("\n") r.rows
    else (""))

/-- The `insert` branch of `crudOperations`. -/
def crudInsert (env : PgEnv) (args : PgArgs) (tn : String) (p : Nat) :
    Except JsError ToolResult × List PgEvent :=
  let dat := args.data.getD []
  if dat.isEmpty then
    (.error (wrapCrudErr (.mcp ⟨.invalidParams,
      ("Data is required for insert operation")⟩)), [])
  else
    match mapEx sanitizeIdentifier (dat.map Prod.fst) with
    | .error e => (.error (wrapCrudErr e), [])
    | .ok cols =>
      let vals := dat.map Prod.snd
      let placeholders := String.intercalate (", ")
        ((List.range vals.length).map (fun i => ("$") ++ toString (i + 1)))
      let oc := args.onConflict.getD ("")
      let q := ("INSERT INTO ") ++ tn ++ (" (") ++
        String.intercalate (", ") cols ++ (") VALUES (") ++ placeholders ++
        (")") ++ (if oc = ("") then ("") else (" ") ++ oc) ++ (" RETURNING *")
      match env.queryOutcome (some q) vals with
      | .ok r =>
          (.ok ⟨[⟨("text"), crudOkText
            (("✅ Successfully inserted ") ++ toString r.rowCount ++
              (" row(s) into ") ++ args.tableName.getD ("undefined")) r⟩],
            none⟩, [.query p (some q) vals])
      | .error m => (.error (wrapCrudErr (.plain m)), [.query p (some q) vals])

/-- The `update` branch of `crudOperations`.  A missing `whereParams`
array makes the JavaScript spread `[...updateValues, ...whereParams]`
throw a `TypeError`, which the catch block wraps. -/
def crudUpdate (env : PgEnv) (args : PgArgs) (tn : String) (p : Nat) :
    Except JsError ToolResult × List PgEvent :=
  let dat := args.data.getD []
  if dat.isEmpty then
    (.error (wrapCrudErr (.mcp ⟨.invalidParams,
      ("Data is required for update operation")⟩)), [])
  else if (args.whereClause.getD ("")) = ("") then
    (.error (wrapCrudErr (.mcp ⟨.invalidParams,
      ("WHERE clause is required for update operation")⟩)), [])
  else
    match mapEx
        (fun ik => (sanitizeIdentifier ik.2).map
          (fun n => n ++ (" = $") ++ toString (ik.1 + 1)))
        ((dat.map Prod.fst).enum) with
    | .error e => (.error (wrapCrudErr e), [])
    | .ok setParts =>
      let q := ("UPDATE ") ++ tn ++ (" SET ") ++
        String.intercalate (", ") setParts ++ (" WHERE ") ++
        (args.whereClause.getD ("")) ++ (" RETURNING *")
      match args.whereParams with
      | none => (.error (wrapCrudErr (.plain ("undefined is not iterable"))), [])
      | some wp =>
        let ps := dat.map Prod.snd ++ wp
        match env.queryOutcome (some q) ps with
        | .ok r =>
            (.ok ⟨[⟨("text"), crudOkText
              (("✅ Successfully updated ") ++ toString r.rowCount ++
                (" row(s) in ") ++ args.tableName.getD ("undefined")) r⟩],
              none⟩, [.query p (some q) ps])
        | .error m => (.error (wrapCrudErr (.plain m)), [.query p (some q) ps])

/-- The `delete` branch of `crudOperations`. -/
def crudDelete (env : PgEnv) (args : PgArgs) (tn : String) (p : Nat) :
    Except JsError ToolResult × List PgEvent :=
  if (args.whereClause.getD ("")) = ("") then
    (.error (wrapCrudErr (.mcp ⟨.invalidParams,
      ("WHERE clause is required for delete operation")⟩)), [])
  else
    let q := ("DELETE FROM ") ++ tn ++ (" WHERE ") ++
      (args.whereClause.getD ("")) ++ (" RETURNING *")
    let ps := args.whereParams.getD []
    match env.queryOutcome (some q) ps with
    | .ok r =>
        (.ok ⟨[⟨("text"), crudOkText
          (("✅ Successfully deleted ") ++ toString r.rowCount ++
            (" row(s) from ") ++ args.tableName.getD ("undefined")) r⟩],
          none⟩, [.query p (some q) ps])
    | .error m => (.error (wrapCrudErr (.plain m)), [.query p (some q) ps])

/-- `crudOperations(args)`.  The table-name sanitisation runs before the
try block, so an invalid table name escapes as a plain `Error` to the
dispatcher; everything after it is wrapped by the handler catch block. -/
def crudOperations (env : PgEnv) (args : PgArgs) (s : PgState) :
    Except JsError ToolResult × List PgEvent :=
  match s.pool with
  | none => (.error noConnectionError, [])
  | some p =>
    match sanitizeIdentifier (args.tableName.getD ("undefined")) with
    | .error e => (.error e, [])
    | .ok tn =>
      match args.operation with
      | some ("insert") => crudInsert env args tn p
      | some ("update") => crudUpdate env args tn p
      | some ("delete") => crudDelete env args tn p
      | some op =>
          (.error (wrapCrudErr (.mcp ⟨.invalidParams,
            ("Invalid operation: ") ++ op⟩)), [])
      | none =>
          (.error (wrapCrudErr (.mcp ⟨.invalidParams,
            ("Invalid operation: undefined")⟩)), [])

/-- `dropTable(tableName, cascade = false)`; sanitisation happens inside
the try block, before any SQL is sent. -/
def dropTable (env : PgEnv) (tableName : Option String)
    (cascade : Option Bool) (s : PgState) :
    Except JsError ToolResult × List PgEvent :=
  match s.pool with
  | none => (.error noConnectionError, [])
  | some p =>
    match sanitizeIdentifier (tableName.getD ("undefined")) with
    | .error e =>
        (.error (.mcp ⟨.internalError,
          ("Failed to drop table: ") ++ e.message⟩), [])
    | .ok tn =>
      let q := ("DROP TABLE ") ++ tn ++
        (if cascade.getD false then (" CASCADE") else (""))
      match env.queryOutcome (some q) [] with
      | .ok _ =>
          (.ok ⟨[⟨("text"),
            ("✅ Table ") ++ tableName.getD ("undefined") ++
              (" dropped successfully") ++
              (if cascade.getD false then (" (with CASCADE)") else (""))⟩],
            none⟩, [.query p (some q) []])
      | .error m =>
          (.error (.mcp ⟨.internalError, ("Failed to drop table: ") ++ m⟩),
            [.query p (some q) []])

/-- The `CallToolRequestSchema` dispatcher of the PostgreSQL daemon.  Its
catch block rethrows `McpError`s and wraps any other error in an
`InternalError` `McpError` — either way the error leaves the dispatch
layer as a thrown exception (`.error`), never as an `isError` envelope. -/
def callToolPostgres (env : PgEnv) (name : String) (args : PgArgs)
    (s : PgState) : Except McpError ToolResult × PgState × List PgEvent :=
  let run : Except JsError ToolResult × PgState × List PgEvent :=
    match name with
    | ("connect_database") => connectDatabase env args s
    | ("disconnect_database") => disconnectDatabase s
    | ("execute_query") =>
        let r := executeQuery env args.query args.params s
        (r.1, s, r.2)
    | ("create_table") =>
        let r := createTable env args.tableName args.columns args.options s
        (r.1, s, r.2)
    | ("crud_operations") =>
        let r := crudOperations env args s
        (r.1, s, r.2)
    | ("table_info") =>
        (match s.pool with
         | none => (.error noConnectionError, s, [])
         | some _ => (env.tableInfoH args s.pool, s, []))
    | ("drop_table") =>
        let r := dropTable env args.tableName args.cascade s
        (r.1, s, r.2)
    | ("get_database_info") =>
        (match s.pool with
         | none => (.error noConnectionError, s, [])
         | some _ => (env.getDatabaseInfoH s.pool, s, []))
    | other => (.error (.mcp ⟨.methodNotFound, ("Unknown tool: ") ++ other⟩), s, [])
  match run with
  | (.ok r, s', ev) => (.ok r, s', ev)
  | (.error (.mcp e), s', ev) => (.error e, s', ev)
  | (.error (.plain m), s', ev) =>
      (.error ⟨.internalError, ("Database operation failed: ") ++ m⟩, s', ev)

/-! ### Accounting of open pools -/

/-- Applying one event to the multiset of open pools. -/
def applyPoolEvent (live : List Nat) : PgEvent → List Nat
  | .poolCreate p => live ++ [p]
  | .poolEnd p => live.erase p
  | .query _ _ _ => live

/-- Open pools after a sequence of events. -/
def poolsAfter (live : List Nat) : List PgEvent → List Nat
  | [] => live
  | e :: es => poolsAfter (applyPoolEvent live e) es

/-- The largest number of simultaneously open pools at any point during a
sequence of events, starting from `live`. -/
def maxOpenPools (live : List Nat) : List PgEvent → Nat
  | [] => live.length
  | e :: es => max live.length (maxOpenPools (applyPoolEvent live e) es)

/-- The pools the server state refers to. -/
def livePools (s : PgState) : List Nat := s.pool.toList

/-- The tool table of the PostgreSQL daemon, in registration order, with
each declared `required` list. -/
def postgresToolDecls : List ToolDecl :=
  [⟨("connect_database"), [("database"), ("user"), ("password")]⟩,
   ⟨("disconnect_database"), []⟩,
   ⟨("execute_query"), [("query")]⟩,
   ⟨("create_table"), [("tableName"), ("columns")]⟩,
   ⟨("crud_operations"), [("operation"), ("tableName")]⟩,
   ⟨("table_info"), [("action")]⟩,
   ⟨("drop_table"), [("tableName")]⟩,
   ⟨("get_database_info"), []⟩]

/-- The `ListToolsRequestSchema` handler of the PostgreSQL daemon: a pure
read of the static table. -/
def listPostgresTools (s : PgState) : List ToolDecl × PgState :=
  (postgresToolDecls, s)

/-! ## HTTP api-tester daemon (source: the api-tester MCP server) -/

/-- The `auth` object of `send_http_request`. -/
structure AuthConfig where
  type : Option String := none
  token : Option String := none
  username : Option String := none
  password : Option String := none
  apiKey : Option String := none
  apiKeyHeader : Option String := none
deriving DecidableEq

/-- The raw `arguments` object of an api-tester tool call; `none` models
an absent (undefined) field. -/
structure ApiArgs where
  url : Option String := none
  method : Option String := none
  headers : Option (List (String × String)) := none
  body : Option String := none
  auth : Option AuthConfig := none
  timeout : Option Nat := none
  followRedirects : Option Bool := none
  validateStatus : Option Bool := none
  name : Option String := none
  collection : Option String := none
  requests : Option Nat := none
  interval : Option Nat := none

/-- The axios request configuration built by `sendHttpRequest`.
`acceptAllStatuses` is true when the source passes
`validateStatus: () => true` (its `args.validateStatus = false` default);
it is false when the source passes `undefined` and axios falls back to
accepting only 2xx. -/
structure AxiosConfig where
  method : String
  url : Option String
  headers : List (String × String)
  timeout : Nat
  maxRedirects : Nat
  acceptAllStatuses : Bool
  data : Option String := none
deriving DecidableEq

/-- A resolved HTTP response as the handler reads it (`data` is the raw
response body text). -/
structure AxiosResponse where
  status : Nat
  statusText : String
  headers : List (String × String)
  data : String
deriving DecidableEq

/-- What the network did for one request. -/
inductive NetOutcome
  | response (r : AxiosResponse)
  | netError (message : String) (code : Option String)
deriving DecidableEq

/-- Network answer plus the wall-clock between the `Date.now()` pair
around the awaited call. -/
structure NetResult where
  outcome : NetOutcome
  elapsedMs : Nat
deriving DecidableEq

/-- Outcome of one `axios.get` probe inside `testEndpointHealth`. -/
inductive ProbeOutcome
  | ok (status : Nat) (elapsedMs : Nat)
  | fail (message : String) (status : Option Nat)
deriving DecidableEq

/-- External world of the api-tester daemon.  `net` answers the single
axios call of `sendHttpRequest`; `probeGet` answers the i-th `axios.get`
of a `testEndpointHealth` loop; `jsonParses` tells whether `JSON.parse`
succeeds on a body string; `base64` is the Node `Buffer` base64 encoder.
The four filesystem-backed handlers (`saveRequest`, `loadRequest`,
`listSavedRequests`) and the regex-scraping `validateJsonResponse` are
modelled abstractly as arbitrary handler outcomes. -/
structure ApiEnv where
  net : AxiosConfig → NetResult
  probeGet : Nat → ProbeOutcome
  jsonParses : String → Bool
  base64 : String → String
  saveRequestH : ApiArgs → Except JsError ToolResult
  loadRequestH : ApiArgs → Except JsError ToolResult
  listSavedRequestsH : ApiArgs → Except JsError ToolResult
  validateJsonResponseH : ApiArgs → Except JsError ToolResult

/-- JavaScript object property assignment `obj[k] = v` on an ordered
string map. -/
def setEntry (l : List (String × String)) (k v : String) :
    List (String × String) :=
  if l.any (fun kv => kv.1 = k) then
    l.map (fun kv => if kv.1 = k then (k, v) else kv)
  else l ++ [(k, v)]

/-- `obj[k] = obj[k] || v`. -/
def setEntryIfAbsent (l : List (String × String)) (k v : String) :
    List (String × String) :=
  if l.any (fun kv => kv.1 = k) then l else l ++ [(k, v)]

/-- Rendering of an absent string in a JavaScript template literal. -/
def jsShowOpt (s : Option String) : String := s.getD ("undefined")

/-- Rendering of an optional number in a JavaScript template literal. -/
def jsShowNat (n : Option Nat) : String :=
  match n with
  | some v => toString v
  | none => ("undefined")

/-- The authentication switch of `sendHttpRequest`. -/
def applyAuth (env : ApiEnv) (hs : List (String × String)) :
    Option AuthConfig → List (String × String)
  | none => hs
  | some a =>
    match a.type with
    | some ("bearer") =>
        setEntry hs ("Authorization")
          (("Bearer ") ++ (a.token.getD ("undefined")))
    | some ("basic") =>
        setEntry hs ("Authorization")
          (("Basic ") ++ env.base64 ((a.username.getD ("undefined")) ++ (":") ++
            (a.password.getD ("undefined"))))
    | some ("api-key") =>
        setEntry hs (a.apiKeyHeader.getD ("X-API-Key"))
          (a.apiKey.getD ("undefined"))
    | _ => hs

/-- Whether the lower-cased method carries a body in the source check. -/
def methodNeedsBody (mLower : String) : Bool :=
  mLower = ("post") || mLower = ("put") || mLower = ("patch")

/-- The body-attachment step: a truthy body on a body-carrying method is
attached (the parsed-object versus raw-string distinction of the inner
`JSON.parse` try is abstracted: the oracle `jsonParses` only decides
whether the `Content-Type: application/json` default is applied). -/
def bodyStep (env : ApiEnv) (hs : List (String × String)) (mLower : String) :
    Option String → List (String × String) × Option String
  | none => (hs, none)
  | some b =>
    if b ≠ ("") && methodNeedsBody mLower then
      if env.jsonParses b then
        (setEntryIfAbsent hs ("Content-Type") ("application/json"), some b)
      else (hs, some b)
    else (hs, none)

/-- The axios configuration object built by `sendHttpRequest` from its
destructured arguments and their defaults. -/
def buildAxiosConfig (env : ApiEnv) (args : ApiArgs) : AxiosConfig :=
  let hs0 := applyAuth env (args.headers.getD []) args.auth
  let mLower := (args.method.getD ("GET")).toLower
  let hb := bodyStep env hs0 mLower args.body
  { method := mLower
    url := args.url
    headers := hb.1
    timeout := args.timeout.getD 10000
    maxRedirects := if args.followRedirects.getD true then 5 else 0
    acceptAllStatuses := !(args.validateStatus.getD false)
    data := hb.2 }

/-- Abbreviated rendering of a header map as the response text's JSON
block (`JSON.stringify` escaping/indentation elided). -/
def renderHeaders (hs : List (String × String)) : String :=
  ("\x7b") ++ String.intercalate (",\n")
    (hs.map (fun kv => ("  \"") ++ kv.1 ++ ("\": \"") ++ kv.2 ++ ("\""))) ++
    ("\x7d")

/-- A rejected axios call as the handler reads it. -/
structure AxiosFailure where
  message : String
  code : Option String := none
  status : Option Nat := none
  statusText : Option String := none
  data : Option String := none
deriving DecidableEq

/-- Abbreviated rendering of the `errorInfo` object. -/
def renderFailure (f : AxiosFailure) : String :=
  ("\x7b \"message\": \"") ++ f.message ++ ("\", \"status\": ") ++
    jsShowNat f.status ++ (" \x7d")

/-- The success text of `sendHttpRequest`; the HTTP status is reported
inside it.  `JSON.stringify(response.data).length` on the raw body string
is its length plus the two quotes (escaping elided). -/
def successText (args : ApiArgs) (resp : AxiosResponse) (elapsed : Nat) :
    String :=
  ("✅ **Petición exitosa**\n\n**URL:** ") ++ jsShowOpt args.url ++
  ("\n**Método:** ") ++ (args.method.getD ("GET")) ++
  ("\n**Estado:** ") ++ toString resp.status ++ (" ") ++ resp.statusText ++
  ("\n**Tiempo:** ") ++ toString elapsed ++ ("ms") ++
  ("\n**Tamaño:** ") ++ toString (resp.data.length + 2) ++ (" bytes") ++
  ("\n\n**Headers de respuesta:**\n```json\n") ++ renderHeaders resp.headers ++
  ("\n```\n\n**Cuerpo de respuesta:**\n```json\n") ++ resp.data ++ ("\n```")

/-- The failure text of `sendHttpRequest`. -/
def httpErrorText (args : ApiArgs) (f : AxiosFailure) : String :=
  ("❌ **Error en la petición**\n\n**URL:** ") ++ jsShowOpt args.url ++
  ("\n**Método:** ") ++ (args.method.getD ("GET")) ++
  ("\n**Error:** ") ++ f.message ++
  ("\n\n**Detalles del error:**\n```json\n") ++ renderFailure f ++ ("\n```")

/-- `sendHttpRequest(args)`.  The handler never throws: both the resolved
and the rejected branch of the awaited axios call are converted to a
`ToolResult` by the handler itself.  With the default
`validateStatus = false` the config accepts every HTTP status, so a
non-2xx response resolves into the success branch. -/
def sendHttpRequest (env : ApiEnv) (args : ApiArgs) : ToolResult :=
  let cfg := buildAxiosConfig env args
  let r := env.net cfg
  match r.outcome with
  | .response resp =>
    if cfg.acceptAllStatuses ∨ (200 ≤ resp.status ∧ resp.status < 300) then
      ⟨[⟨("text"), successText args resp r.elapsedMs⟩], none⟩
    else
      ⟨[⟨("text"), httpErrorText args
          ⟨("Request failed with status code ") ++ toString resp.status, none,
            some resp.status, some resp.statusText, some resp.data⟩⟩],
        some true⟩
  | .netError m c =>
      ⟨[⟨("text"), httpErrorText args ⟨m, c, none, none, none⟩⟩], some true⟩

/-- One row of the `results` array of `testEndpointHealth`. -/
structure ProbeRecord where
  request : Nat
  status : Option Nat
  responseTime : Option Nat
  success : Bool
  errorMsg : Option String := none
deriving DecidableEq

/-- The record pushed for probe `i` (`status` is `error.response?.status`
when present, rendered as `ERROR` otherwise). -/
def probeRecord (i : Nat) : ProbeOutcome → ProbeRecord
  | .ok st t => ⟨i + 1, some st, some t, true, none⟩
  | .fail m st => ⟨i + 1, st, none, false, some m⟩

/-- Observable schedule of the health-check loop: probes and the awaited
`setTimeout` gaps, in program order. -/
inductive HealthEvent
  | probe (i : Nat)
  | delay (ms : Nat)
deriving DecidableEq

/-- The loop schedule from iteration `i` with `fuel` iterations left: a
delay of `d` ms follows every probe except the last. -/
def healthTraceGo (d i : Nat) : Nat → List HealthEvent
  | 0 => []
  | 1 => [.probe i]
  | n + 2 => .probe i :: .delay d :: healthTraceGo d (i + 1) (n + 1)

/-- The full schedule of a health check of `n` probes at interval `d`. -/
def healthTrace (d n : Nat) : List HealthEvent := healthTraceGo d 0 n

/-- The `results` array after the loop. -/
def healthResults (probe : Nat → ProbeOutcome) (n : Nat) : List ProbeRecord :=
  (List.range n).map (fun i => probeRecord i (probe i))

/-- Status column of one detail line. -/
def probeStatusText (r : ProbeRecord) : String :=
  match r.status with
  | some n => toString n
  | none => ("ERROR")

/-- Time column of one detail line (`result.responseTime ? ... : 'N/A'`;
a 0 ms time is falsy in JavaScript and also renders as the N/A column). -/
def probeTimeText (r : ProbeRecord) : String :=
  match r.responseTime with
  | some t => if t = 0 then ("N/A") else toString t ++ ("ms")
  | none => ("N/A")

/-- `q.toFixed(0)`. -/
def qToFixed0 (q : ℚ) : String := toString (round q)

/-- `q.toFixed(1)` for the non-negative rates that occur here. -/
def qToFixed1 (q : ℚ) : String :=
  let m := round (q * 10)
  toString (m / 10) ++ (".") ++ toString (m % 10)

/-- The summary text of `testEndpointHealth`. -/
def healthText (url : Option String) (n : Nat) (results : List ProbeRecord)
    (successCount : Nat) (rate avg : ℚ) : String :=
  ("🏥 **Health Check Results**\n\n") ++
  ("**URL:** ") ++ jsShowOpt url ++ ("\n") ++
  ("**Peticiones:** ") ++ toString n ++ ("\n") ++
  ("**Exitosas:** ") ++ toString successCount ++ ("/") ++ toString n ++
    (" (") ++ qToFixed1 rate ++ ("%)\n") ++
  ("**Tiempo promedio:** ") ++ qToFixed0 avg ++ ("ms\n\n") ++
  ("**Detalles:**\n") ++
  String.join (results.map (fun r =>
    (if r.success then ("✅") else ("❌")) ++ (" Petición ") ++
      toString r.request ++ (": ") ++ probeStatusText r ++ (" - ") ++
      probeTimeText r ++ ("\n")))

/-- `testEndpointHealth(args)`: `n` strictly sequential probes, an
awaited `setTimeout(interval)` between consecutive ones, per-probe
records, and one non-error aggregated summary (`NaN || 0` for the
average when no probe succeeded). -/
def testEndpointHealth (env : ApiEnv) (args : ApiArgs) :
    ToolResult × List HealthEvent :=
  let n := args.requests.getD 5
  let interval := args.interval.getD 1000
  let results := healthResults env.probeGet n
  let successCount := (results.filter (fun r => r.success)).length
  let totalTime : Nat :=
    ((results.filter (fun r => r.success)).filterMap
      (fun r => r.responseTime)).sum
  let avg : ℚ := if successCount = 0 then 0 else (totalTime : ℚ) / (successCount : ℚ)
  let rate : ℚ := (successCount : ℚ) / (n : ℚ) * 100
  (⟨[⟨("text"), healthText args.url n results successCount rate avg⟩], none⟩,
    healthTrace interval n)

/-- The `CallToolRequestSchema` dispatcher of the api-tester daemon: the
switch routes to the handler (second component: the handler-invocation
list) and the surrounding catch converts any thrown error into a normal
`isError: true` envelope, so the dispatcher is a total function into
`ToolResult` — exactly one response per call, no escaping exception. -/
def callToolApiTester (env : ApiEnv) (name : String) (args : ApiArgs) :
    ToolResult × List String :=
  let run : Except JsError ToolResult × List String :=
    match name with
    | ("send_http_request") => (.ok (sendHttpRequest env args), [name])
    | ("save_request") => (env.saveRequestH args, [name])
    | ("load_request") => (env.loadRequestH args, [name])
    | ("list_saved_requests") => (env.listSavedRequestsH args, [name])
    | ("test_endpoint_health") => (.ok (testEndpointHealth env args).1, [name])
    | ("validate_json_response") => (env.validateJsonResponseH args, [name])
    | other => (.error (.plain (("Herramienta desconocida: ") ++ other)), [])
  match run with
  | (.ok r, inv) => (r, inv)
  | (.error e, inv) =>
      (⟨[⟨("text"), ("Error: ") ++ e.message⟩], some true⟩, inv)

/-- The tool table of the api-tester daemon, in registration order. -/
def apiToolDecls : List ToolDecl :=
  [⟨("send_http_request"), [("url")]⟩,
   ⟨("save_request"), [("name"), ("config")]⟩,
   ⟨("load_request"), [("name")]⟩,
   ⟨("list_saved_requests"), []⟩,
   ⟨("test_endpoint_health"), [("url")]⟩,
   ⟨("validate_json_response"), [("url"), ("schema")]⟩]

/-- The `ListToolsRequestSchema` handler of the api-tester daemon (the
server object has no mutable state; the handler returns the static
table). -/
def listApiTesterTools (_u : Unit) : List ToolDecl := apiToolDecls

/-! ## Memory daemon (source: the memory MCP server) -/

/-- The raw `arguments` object of a memory tool call. -/
structure MemArgs where
  content : Option String := none
  tags : Option (List String) := none
  memory_type : Option String := none
  project_path : Option String := none
  query : Option String := none
  limit : Option Nat := none
  memory_id : Option Nat := none
  days_threshold : Option Nat := none

/-- What `sqlite3`'s `run` reports back (`this.lastID`, `this.changes`). -/
structure MemRun where
  id : Nat
  changes : Nat
deriving DecidableEq

/-- External world of the memory daemon.  `dbRun` answers `runAsync`.
The three read-only handlers built on `allAsync` (`searchMemories`,
`getRecentMemories`, `listMemoryTags`) are modelled abstractly as
arbitrary handler outcomes. -/
structure MemEnv where
  dbRun : String → List JsPrim → Except String MemRun
  searchMemoriesH : MemArgs → Except JsError ToolResult
  getRecentMemoriesH : MemArgs → Except JsError ToolResult
  listMemoryTagsH : Option String → Except JsError ToolResult

/-- `JSON.stringify` of a string array. -/
def jsonStringArr (xs : List String) : String :=
  ("[") ++ String.intercalate (",")
    (xs.map (fun s => ("\"") ++ s ++ ("\""))) ++ ("]")

/-- The INSERT template literal of `storeMemory`, whitespace included. -/
def insertMemorySql : String :=
  ("\n      INSERT INTO memories (content, tags, memory_type, project_path)\n      VALUES (?, ?, ?, ?)\n    ")

/-- The parameter array bound by `storeMemory`. -/
def storeMemoryParams (args : MemArgs) : List JsPrim :=
  [match args.content with | some c => .str c | none => .undef,
   .str (jsonStringArr (args.tags.getD [])),
   .str (args.memory_type.getD ("note")),
   .str (args.project_path.getD (""))]

/-- The success text of `storeMemory`. -/
def storeMemoryText (id : Nat) (memoryType projectPath content : String) :
    String :=
  ("🧠 Memory stored! ID: ") ++ toString id ++
  ("\nType: ") ++ memoryType ++
  ("\nProject: ") ++ (if projectPath = ("") then ("Global") else projectPath) ++
  ("\nContent: ") ++ content.take 100 ++ ("...")

/-- `storeMemory(args)`: a failed INSERT makes the handler throw an
`InternalError` `McpError`; an absent `content` makes the later
`content.substring` call throw a `TypeError` (message abbreviated). -/
def storeMemory (env : MemEnv) (args : MemArgs) : Except JsError ToolResult :=
  match env.dbRun insertMemorySql (storeMemoryParams args) with
  | .error m => .error (.mcp ⟨.internalError, ("Failed to store memory: ") ++ m⟩)
  | .ok r =>
    match args.content with
    | none => .error (.plain ("Cannot read properties of undefined"))
    | some c =>
        .ok ⟨[⟨("text"), storeMemoryText r.id (args.memory_type.getD ("note"))
          (args.project_path.getD ("")) c⟩], none⟩

/-- `deleteMemory(memoryId)`. -/
def deleteMemory (env : MemEnv) (memoryId : Option Nat) :
    Except JsError ToolResult :=
  match env.dbRun ("DELETE FROM memories WHERE id = ?")
      [match memoryId with | some i => .num i | none => .undef] with
  | .error m => .error (.mcp ⟨.internalError, ("Delete failed: ") ++ m⟩)
  | .ok r =>
      .ok ⟨[⟨("text"),
        (if r.changes > 0 then
          ("🗑️ Memory ") ++ jsShowNat memoryId ++ (" deleted successfully!")
        else
          ("❌ Memory ") ++ jsShowNat memoryId ++ (" not found."))⟩], none⟩

/-- The template literal of `cleanupOldMemories`. -/
def cleanupSql : String :=
  ("DELETE FROM memories WHERE created_at <= datetime(\"now\", \"-\" || ? || \" days\")")

/-- `cleanupOldMemories(args)`. -/
def cleanupOldMemories (env : MemEnv) (args : MemArgs) :
    Except JsError ToolResult :=
  let d := args.days_threshold.getD 365
  match env.dbRun cleanupSql [.num d] with
  | .error m => .error (.mcp ⟨.internalError, ("Cleanup failed: ") ++ m⟩)
  | .ok r =>
      .ok ⟨[⟨("text"), ("🧹 Cleanup completed! Removed ") ++
        toString r.changes ++ (" memories older than ") ++ toString d ++
        (" days.")⟩], none⟩

/-- The `CallToolRequestSchema` dispatcher of the memory daemon.  Unlike
the api-tester dispatcher, its catch block rethrows `McpError`s and
wraps any other error in a new `McpError`: every handler failure leaves
the dispatch layer as a thrown exception (`.error`), not as an
`isError: true` envelope. -/
def callToolMemory (env : MemEnv) (name : String) (args : MemArgs) :
    Except McpError ToolResult :=
  let run : Except JsError ToolResult :=
    match name with
    | ("store_memory") => storeMemory env args
    | ("search_memories") => env.searchMemoriesH args
    | ("get_recent_memories") => env.getRecentMemoriesH args
    | ("delete_memory") => deleteMemory env args.memory_id
    | ("list_memory_tags") => env.listMemoryTagsH args.project_path
    | ("cleanup_old_memories") => cleanupOldMemories env args
    | other => .error (.mcp ⟨.methodNotFound, ("Unknown tool: ") ++ other⟩)
  match run with
  | .ok r => .ok r
  | .error (.mcp e) => .error e
  | .error (.plain m) =>
      .error ⟨.internalError, ("Memory operation failed: ") ++ m⟩

/-- The tool table of the memory daemon, in registration order. -/
def memoryToolDecls : List ToolDecl :=
  [⟨("store_memory"), [("content")]⟩,
   ⟨("search_memories"), []⟩,
   ⟨("get_recent_memories"), []⟩,
   ⟨("delete_memory"), [("memory_id")]⟩,
   ⟨("list_memory_tags"), []⟩,
   ⟨("cleanup_old_memories"), []⟩]

/-- The `ListToolsRequestSchema` handler of the memory daemon. -/
def listMemoryTools (_u : Unit) : List ToolDecl := memoryToolDecls

/-! ## Sample environments used by concrete witnesses -/

/-- Whether an `Except` result left the dispatch layer as a thrown
exception. -/
def throwsToTransport (r : Except McpError ToolResult) : Bool :=
  match r with
  | .error _ => true
  | .ok _ => false

/-- A fixed 200 response. -/
def sampleResp : AxiosResponse := ⟨200, ("OK"), [], ("body")⟩

/-- A handler oracle that always succeeds with an empty envelope. -/
def okHandler : ApiArgs → Except JsError ToolResult := fun _ => .ok ⟨[], none⟩

/-- A benign api-tester world: every request gets a 200 in 5 ms; probe 1
of a health check fails, the others succeed. -/
def sampleApiEnv : ApiEnv :=
  { net := fun _ => ⟨.response sampleResp, 5⟩
    probeGet := fun i =>
      if i = 1 then .fail ("connect ECONNREFUSED") none else .ok 200 (10 + i)
    jsonParses := fun _ => false
    base64 := fun s => s
    saveRequestH := okHandler
    loadRequestH := okHandler
    listSavedRequestsH := okHandler
    validateJsonResponseH := okHandler }

/-- Same world, but the filesystem-backed save handler throws. -/
def apiEnvSaveFails : ApiEnv :=
  { sampleApiEnv with
    saveRequestH := fun _ =>
      .error (.plain ("ENOENT: no such file or directory")) }

/-- Same world, but the awaited HTTP call takes 1 000 000 000 ms. -/
def slowApiEnv : ApiEnv :=
  { sampleApiEnv with net := fun _ => ⟨.response sampleResp, 1000000000⟩ }

/-- Same world, but every request resolves with HTTP 404. -/
def notFoundApiEnv : ApiEnv :=
  { sampleApiEnv with
    net := fun _ => ⟨.response ⟨404, ("Not Found"), [], ("missing")⟩, 12⟩ }

/-- A benign memory world. -/
def sampleMemEnv : MemEnv :=
  { dbRun := fun _ _ => .ok ⟨1, 1⟩
    searchMemoriesH := fun _ => .ok ⟨[], none⟩
    getRecentMemoriesH := fun _ => .ok ⟨[], none⟩
    listMemoryTagsH := fun _ => .ok ⟨[], none⟩ }

/-- A memory world whose sqlite layer fails every statement. -/
def failingMemEnv : MemEnv :=
  { sampleMemEnv with
    dbRun := fun _ _ => .error ("SQLITE_ERROR: no such table: memories") }

/-- A benign PostgreSQL world. -/
def samplePgEnv : PgEnv :=
  { connectOutcome := fun _ => .ok ("2025-01-01T00:00:00.000Z")
    queryOutcome := fun _ _ => .ok ⟨1, []⟩
    tableInfoH := fun _ _ => .ok ⟨[], none⟩
    getDatabaseInfoH := fun _ => .ok ⟨[], none⟩ }

/-- A PostgreSQL world in which the connection test of a new pool fails. -/
def pgEnvConnectFails : PgEnv :=
  { samplePgEnv with
    connectOutcome := fun _ => .error ("password authentication failed") }

/-- A PostgreSQL world in which every statement errors. -/
def pgEnvQueryFails : PgEnv :=
  { samplePgEnv with queryOutcome := fun _ _ => .error ("syntax error") }

/-! ## Generic helper lemmas -/

/-- `needle` occurs as a contiguous substring of `hay`. -/
def strOccurs (needle hay : String) : Prop :=
  ∃ pre post : String, hay = pre ++ needle ++ post

theorem strOccurs_self (n : String) : strOccurs n n :=
  ⟨(""), (""), by simp⟩

theorem strOccurs_left (n a b : String) (h : strOccurs n a) :
    strOccurs n (a ++ b) := by
  obtain ⟨pre, post, rfl⟩ := h
  exact ⟨pre, post ++ b, by simp [String.append_assoc]⟩

theorem strOccurs_right (n a b : String) (h : strOccurs n b) :
    strOccurs n (a ++ b) := by
  obtain ⟨pre, post, rfl⟩ := h
  exact ⟨a ++ pre, post, by simp [String.append_assoc]⟩

theorem strOccurs_pair (a b c : String) : strOccurs (b ++ c) ((a ++ b) ++ c) :=
  ⟨a, (""), by simp [String.append_assoc]⟩

theorem mapEx_ok_forall {α β : Type} (f : α → Except JsError β) (P : α → Prop)
    (hf : ∀ a b, f a = .ok b → P a) :
    ∀ (l : List α) (out : List β), mapEx f l = .ok out → ∀ a ∈ l, P a := by
  intro l
  induction l with
  | nil => intro out _h a ha; cases ha
  | cons x l ih =>
    intro out h a ha
    cases hfx : f x with
    | error e => simp only [mapEx, hfx] at h; exact Except.noConfusion h
    | ok b =>
      simp only [mapEx, hfx] at h
      cases hrest : mapEx f l with
      | error e => simp only [hrest] at h; exact Except.noConfusion h
      | ok bs =>
        simp only [hrest] at h
        rcases List.mem_cons.mp ha with rfl | ha'
        · exact hf a b hfx
        · exact ih bs hrest a ha'

theorem mapEx_error_of_invalid {α β : Type} (f : α → Except JsError β)
    (l : List α) (a : α) (ha : a ∈ l) (hbad : ∀ b, f a ≠ .ok b) :
    ∃ e, mapEx f l = .error e := by
  induction l with
  | nil => cases ha
  | cons x l ih =>
    cases hfx : f x with
    | error e => exact ⟨e, by simp only [mapEx, hfx]⟩
    | ok b =>
      rcases List.mem_cons.mp ha with rfl | ha'
      · exact absurd hfx (hbad b)
      · obtain ⟨e, he⟩ := ih ha'
        exact ⟨e, by simp only [mapEx, hfx, he]⟩

/-! ## Claim theorems -/

/-- Claim C1 (corrected).  The claim held only for the api-tester daemon:
there, every handler error is caught by the dispatcher and returned as a
single `isError: true` envelope (conjunct 1).  In the memory and
PostgreSQL daemons the dispatcher instead rethrows the handler error as
an `McpError` past the dispatch layer to the transport (conjuncts 2 and
3), not as an `isError: true` envelope. -/
theorem C1_handler_errors_dispatch :
    (∀ (env : ApiEnv) (args : ApiArgs) (e : JsError),
      env.saveRequestH args = .error e →
      callToolApiTester env ("save_request") args =
        (⟨[⟨("text"), ("Error: ") ++ e.message⟩], some true⟩, [("save_request")]))
  ∧ (∀ (env : MemEnv) (args : MemArgs) (m : String),
      env.dbRun insertMemorySql (storeMemoryParams args) = .error m →
      callToolMemory env ("store_memory") args =
        .error ⟨.internalError, ("Failed to store memory: ") ++ m⟩)
  ∧ (∀ (env : PgEnv) (q : Option String) (ps : Option (List JsPrim))
      (s : PgState) (p : Nat) (m : String),
      s.pool = some p →
      env.queryOutcome q (ps.getD []) = .error m →
      (callToolPostgres env ("execute_query")
        ({query := q, params := ps} : PgArgs) s).1 =
        .error ⟨.internalError, ("Query execution failed: ") ++ m⟩) := by
  refine ⟨?_, ?_, ?_⟩
  · intro env args e h
    simp [callToolApiTester, h]
  · intro env args m h
    simp [callToolMemory, storeMemory, h]
  · intro env q ps s p m hp hq
    simp [callToolPostgres, executeQuery, hp, hq]

/-- Claim C1, counterexample to the claim as stated: in the memory
daemon a handler error (a failing INSERT) leaves the dispatch layer as a
thrown `McpError` — the call does not produce an `isError: true`
envelope. -/
theorem C1_counterexample :
    throwsToTransport (callToolMemory failingMemEnv ("store_memory")
      {content := some ("hello")}) = true
  ∧ callToolMemory failingMemEnv ("store_memory") {content := some ("hello")} =
      .error ⟨.internalError,
        ("Failed to store memory: ") ++ ("SQLITE_ERROR: no such table: memories")⟩ :=
  ⟨rfl, rfl⟩

/-- Claim C1, witness instantiating the three conjuncts. -/
theorem C1_witness :
    callToolApiTester apiEnvSaveFails ("save_request") {} =
      (⟨[⟨("text"), ("Error: ") ++ ("ENOENT: no such file or directory")⟩],
        some true⟩, [("save_request")])
  ∧ callToolMemory failingMemEnv ("store_memory") {content := some ("x")} =
      .error ⟨.internalError,
        ("Failed to store memory: ") ++ ("SQLITE_ERROR: no such table: memories")⟩
  ∧ (callToolPostgres pgEnvQueryFails ("execute_query")
      {query := some ("SELECT 1"), params := some []} ⟨some 0, 1⟩).1 =
      .error ⟨.internalError, ("Query execution failed: ") ++ ("syntax error")⟩ :=
  ⟨C1_handler_errors_dispatch.1 apiEnvSaveFails {} _ rfl,
   C1_handler_errors_dispatch.2.1 failingMemEnv {content := some ("x")} _ rfl,
   C1_handler_errors_dispatch.2.2 pgEnvQueryFails (some ("SELECT 1")) (some [])
     ⟨some 0, 1⟩ 0 ("syntax error") rfl rfl⟩

/-- Claim C2 (corrected).  No argument validation exists in the
dispatcher: for every known tool name the handler is invoked exactly
once with the raw arguments, even when a parameter declared `required`
in the schema (e.g. `url` of `send_http_request`, conjunct 1) is absent.
No `MissingRequiredParameter` indication exists anywhere; a missing
parameter surfaces only through whatever the handler itself does. -/
theorem C2_no_validation :
    apiToolDecls.head? = some ⟨("send_http_request"), [("url")]⟩
  ∧ (∀ (env : ApiEnv) (args : ApiArgs) (n : String),
      n ∈ apiToolDecls.map ToolDecl.name →
      (callToolApiTester env n args).2 = [n]) := by
  refine ⟨rfl, ?_⟩
  intro env args n hn
  simp only [apiToolDecls, List.map_cons, List.map_nil, List.mem_cons,
    List.not_mem_nil, or_false] at hn
  rcases hn with rfl | rfl | rfl | rfl | rfl | rfl
  · rfl
  · cases h : env.saveRequestH args <;> simp [callToolApiTester, h]
  · cases h : env.loadRequestH args <;> simp [callToolApiTester, h]
  · cases h : env.listSavedRequestsH args <;> simp [callToolApiTester, h]
  · rfl
  · cases h : env.validateJsonResponseH args <;> simp [callToolApiTester, h]

/-- Claim C2, counterexample to the claim as stated: `send_http_request`
with `url` absent still invokes the handler (invocation list nonempty),
and with a benign network the response is not even an error — no
`MissingRequiredParameter` short-circuit exists. -/
theorem C2_counterexample :
    (callToolApiTester sampleApiEnv ("send_http_request") {}).2 =
      [("send_http_request")]
  ∧ (callToolApiTester sampleApiEnv ("send_http_request") {}).1.isError = none :=
  ⟨rfl, rfl⟩

/-- Claim C2, witness. -/
theorem C2_witness :
    (callToolApiTester sampleApiEnv ("test_endpoint_health") {}).2 =
      [("test_endpoint_health")] :=
  C2_no_validation.2 sampleApiEnv {} ("test_endpoint_health") (by decide)

/-- Claim C3 (corrected).  The dispatch layer imposes no execution-time
ceiling at all: the dispatcher returns the handler result unchanged
(conjunct 1), and a handler whose awaited HTTP call takes any `t`
milliseconds — however far beyond the claimed 30-second default — still
resolves into its normal success envelope reporting `t ms`, never into a
`Timeout` error (conjunct 2).  The only time limits in the source are
client-side axios timeouts inside specific handlers. -/
theorem C3_no_execution_ceiling :
    (∀ (env : ApiEnv) (args : ApiArgs),
      (callToolApiTester env ("send_http_request") args).1 =
        sendHttpRequest env args)
  ∧ (∀ (t : Nat) (resp : AxiosResponse) (args : ApiArgs),
      args.validateStatus = none →
      sendHttpRequest { sampleApiEnv with net := fun _ => ⟨.response resp, t⟩ }
          args = ⟨[⟨("text"), successText args resp t⟩], none⟩
      ∧ strOccurs (toString t ++ ("ms")) (successText args resp t)) := by
  constructor
  · intro env args
    rfl
  · intro t resp args hv
    constructor
    · simp [sendHttpRequest, buildAxiosConfig, hv]
    · unfold successText
      iterate 8 apply strOccurs_left
      exact strOccurs_pair _ _ _

/-- Claim C3, counterexample to the claim as stated: a handler that only
resolves after 1 000 000 000 ms (far past any 30 000 ms ceiling) has its
normal result returned — the dispatcher never fails the call with a
`Timeout` error. -/
theorem C3_counterexample :
    (callToolApiTester slowApiEnv ("send_http_request")
      {url := some ("http://localhost/slow")}).1.isError = none
  ∧ 30000 < 1000000000 :=
  ⟨rfl, by norm_num⟩

/-- Claim C3, witness. -/
theorem C3_witness :
    sendHttpRequest { sampleApiEnv with net := fun _ => ⟨.response sampleResp, 99999⟩ }
        {url := some ("http://x/")} =
      ⟨[⟨("text"), successText {url := some ("http://x/")} sampleResp 99999⟩], none⟩ :=
  (C3_no_execution_ceiling.2 99999 sampleResp {url := some ("http://x/")} rfl).1

/-- Occurrence of the HTTP status inside the success text (used by C4). -/
theorem successText_has_status (args : ApiArgs) (resp : AxiosResponse)
    (t : Nat) : strOccurs (toString resp.status) (successText args resp t) := by
  unfold successText
  iterate 13 apply strOccurs_left
  apply strOccurs_right
  exact strOccurs_self _

/-- Claim C4 (confirmed).  With the default `validateStatus` (absent or
false), any resolved HTTP response — any status, 404 included — makes
the tool call succeed: the envelope has no `isError` field, and the
status is reported inside the text content; the dispatcher passes the
envelope through unchanged. -/
theorem C4_non2xx_is_success :
    ∀ (env : ApiEnv) (args : ApiArgs) (resp : AxiosResponse),
      (args.validateStatus = none ∨ args.validateStatus = some false) →
      (env.net (buildAxiosConfig env args)).outcome = .response resp →
      sendHttpRequest env args =
        ⟨[⟨("text"), successText args resp
          (env.net (buildAxiosConfig env args)).elapsedMs⟩], none⟩
      ∧ (sendHttpRequest env args).isError = none
      ∧ strOccurs (toString resp.status)
          (successText args resp (env.net (buildAxiosConfig env args)).elapsedMs)
      ∧ (callToolApiTester env ("send_http_request") args).1 =
          sendHttpRequest env args := by
  intro env args resp hv hnet
  have hacc : (buildAxiosConfig env args).acceptAllStatuses = true := by
    rcases hv with h | h <;> simp [buildAxiosConfig, h]
  have hmain : sendHttpRequest env args =
      ⟨[⟨("text"), successText args resp
        (env.net (buildAxiosConfig env args)).elapsedMs⟩], none⟩ := by
    unfold sendHttpRequest
    simp [hnet, hacc]
  exact ⟨hmain, by rw [hmain], successText_has_status args resp _, rfl⟩

/-- Claim C4, witness: a stubbed 404 response with default options is a
successful (non-error) tool call. -/
theorem C4_witness :
    (sendHttpRequest notFoundApiEnv {url := some ("http://x/y")}).isError = none :=
  (C4_non2xx_is_success notFoundApiEnv {url := some ("http://x/y")}
    ⟨404, ("Not Found"), [], ("missing")⟩ (Or.inl rfl) rfl).2.1

/-- Claim C5 (confirmed).  When `connect_database` runs while a pool `p`
is active, the emitted effect sequence starts with `end(p)` followed by
the creation of the new pool — close strictly before create; at no
intermediate point is more than one pool open; afterwards exactly the
new pool is open and the server state refers to it. -/
theorem C5_connect_replaces_pool :
    ∀ (env : PgEnv) (cfg : PgArgs) (s : PgState) (p : Nat),
      s.pool = some p →
      (∃ rest, (connectDatabase env cfg s).2.2 =
        .poolEnd p :: .poolCreate s.nextPoolId :: rest)
      ∧ maxOpenPools [p] (connectDatabase env cfg s).2.2 ≤ 1
      ∧ poolsAfter [p] (connectDatabase env cfg s).2.2 = [s.nextPoolId]
      ∧ (connectDatabase env cfg s).2.1 = ⟨some s.nextPoolId, s.nextPoolId + 1⟩ := by
  intro env cfg s p hp
  cases hco : env.connectOutcome s.nextPoolId with
  | ok now =>
      refine ⟨⟨[.query s.nextPoolId (some ("SELECT NOW()")) []], ?_⟩, ?_, ?_, ?_⟩ <;>
        simp [connectDatabase, hp, hco, maxOpenPools, applyPoolEvent, poolsAfter]
  | error m =>
      refine ⟨⟨[], ?_⟩, ?_, ?_, ?_⟩ <;>
        simp [connectDatabase, hp, hco, maxOpenPools, applyPoolEvent, poolsAfter]

/-- Claim C5, witness. -/
theorem C5_witness :
    maxOpenPools [7] (connectDatabase samplePgEnv {} ⟨some 7, 8⟩).2.2 ≤ 1
  ∧ poolsAfter [7] (connectDatabase samplePgEnv {} ⟨some 7, 8⟩).2.2 = [8] :=
  ⟨(C5_connect_replaces_pool samplePgEnv {} ⟨some 7, 8⟩ 7 rfl).2.1,
   (C5_connect_replaces_pool samplePgEnv {} ⟨some 7, 8⟩ 7 rfl).2.2.1⟩

/-- Claim C6 (corrected).  `execute_query` with no active pool does fail
with the exact message `No database connection. Please connect first
using connect_database.` and sends no SQL (empty event list, unchanged
state) — but the failure leaves the dispatch layer as a thrown
`McpError` (`.error`), which the SDK surfaces as a protocol-level error,
not as an `isError: true` result envelope. -/
theorem C6_no_connection_throws :
    ∀ (env : PgEnv) (args : PgArgs) (s : PgState),
      s.pool = none →
      callToolPostgres env ("execute_query") args s =
        (.error ⟨.connectionFailed,
          ("No database connection. Please connect first using connect_database.")⟩,
         s, []) := by
  intro env args s hp
  simp [callToolPostgres, executeQuery, hp, noConnectionError]

/-- Claim C6, counterexample to the claim as stated: with no prior
connect, the `execute_query` call of end-to-end example 2 produces a
thrown exception (`throwsToTransport`), not an `isError: true`
envelope. -/
theorem C6_counterexample :
    throwsToTransport (callToolPostgres samplePgEnv ("execute_query")
      {query := some ("SELECT 1"), params := some []} ⟨none, 0⟩).1 = true
  ∧ (callToolPostgres samplePgEnv ("execute_query")
      {query := some ("SELECT 1"), params := some []} ⟨none, 0⟩).2.2 = [] :=
  ⟨rfl, rfl⟩

/-- Claim C6, witness. -/
theorem C6_witness :
    callToolPostgres pgEnvQueryFails ("execute_query")
      {query := some ("SELECT 1")} ⟨none, 5⟩ =
      (.error ⟨.connectionFailed,
        ("No database connection. Please connect first using connect_database.")⟩,
       ⟨none, 5⟩, []) :=
  C6_no_connection_throws pgEnvQueryFails {query := some ("SELECT 1")} ⟨none, 5⟩ rfl

/-- Claim C7 (confirmed).  The list-tools operation of each daemon is a
pure read of a static registration-ordered table: each tool appears
exactly once, the name sets have no duplicates, and repeated calls
return identical results without mutating any state. -/
theorem C7_list_tools_stable :
    apiToolDecls.map ToolDecl.name =
      [("send_http_request"), ("save_request"), ("load_request"),
       ("list_saved_requests"), ("test_endpoint_health"),
       ("validate_json_response")]
  ∧ (apiToolDecls.map ToolDecl.name).Nodup
  ∧ (∀ d ∈ apiToolDecls, (apiToolDecls.map ToolDecl.name).count d.name = 1)
  ∧ memoryToolDecls.map ToolDecl.name =
      [("store_memory"), ("search_memories"), ("get_recent_memories"),
       ("delete_memory"), ("list_memory_tags"), ("cleanup_old_memories")]
  ∧ (memoryToolDecls.map ToolDecl.name).Nodup
  ∧ (∀ d ∈ memoryToolDecls, (memoryToolDecls.map ToolDecl.name).count d.name = 1)
  ∧ (postgresToolDecls.map ToolDecl.name).Nodup
  ∧ (∀ u₁ u₂ : Unit, listApiTesterTools u₁ = listApiTesterTools u₂)
  ∧ (∀ s : PgState, listPostgresTools s = (postgresToolDecls, s))
  ∧ (∀ s : PgState,
      (listPostgresTools (listPostgresTools s).2).1 = (listPostgresTools s).1) :=
  ⟨rfl, by decide, by decide, rfl, by decide, by decide, by decide,
   fun _ _ => rfl, fun _ => rfl, fun _ => rfl⟩

/-- Claim C7, witness. -/
theorem C7_witness :
    (apiToolDecls.map ToolDecl.name).count ("send_http_request") = 1 :=
  C7_list_tools_stable.2.2.1 ⟨("send_http_request"), [("url")]⟩ (by decide)

/-- Claim C10 (confirmed).  `connect_database` is not atomic on failure:
with a pool `p` active and the new pool's connection test failing, the
call throws, yet the old pool has already been ended, the state refers
to the new (untested) pool instead of being reset to null, and a
subsequent `execute_query` passes the connection check and sends SQL. -/
theorem C10_connect_not_atomic :
    ∀ (env : PgEnv) (cfg : PgArgs) (s : PgState) (p : Nat) (m : String),
      s.pool = some p →
      env.connectOutcome s.nextPoolId = .error m →
      connectDatabase env cfg s =
        (.error (.mcp ⟨.connectionFailed,
            ("Failed to connect to database: ") ++ m⟩),
          ⟨some s.nextPoolId, s.nextPoolId + 1⟩,
          [.poolEnd p, .poolCreate s.nextPoolId])
      ∧ checkConnection ⟨some s.nextPoolId, s.nextPoolId + 1⟩ = .ok ()
      ∧ (s.nextPoolId ≠ p → (connectDatabase env cfg s).2.1.pool ≠ some p)
      ∧ (∀ (q : Option String) (ps : Option (List JsPrim)),
          (executeQuery env q ps ⟨some s.nextPoolId, s.nextPoolId + 1⟩).2 =
            [.query s.nextPoolId q (ps.getD [])]) := by
  intro env cfg s p m hp hco
  have hmain : connectDatabase env cfg s =
      (.error (.mcp ⟨.connectionFailed,
          ("Failed to connect to database: ") ++ m⟩),
        ⟨some s.nextPoolId, s.nextPoolId + 1⟩,
        [.poolEnd p, .poolCreate s.nextPoolId]) := by
    simp [connectDatabase, hp, hco]
  refine ⟨hmain, rfl, ?_, ?_⟩
  · intro hne
    rw [hmain]
    simp [hne]
  · intro q ps
    cases hq : env.queryOutcome q (ps.getD []) with
    | ok r => simp [executeQuery, hq]
    | error e => simp [executeQuery, hq]

/-- Claim C10, witness. -/
theorem C10_witness :
    connectDatabase pgEnvConnectFails {} ⟨some 3, 4⟩ =
      (.error (.mcp ⟨.connectionFailed,
          ("Failed to connect to database: ") ++
            ("password authentication failed")⟩),
        ⟨some 4, 5⟩, [.poolEnd 3, .poolCreate 4])
  ∧ checkConnection ⟨some 4, 5⟩ = .ok () :=
  ⟨(C10_connect_not_atomic pgEnvConnectFails {} ⟨some 3, 4⟩ 3
      ("password authentication failed") rfl rfl).1,
   (C10_connect_not_atomic pgEnvConnectFails {} ⟨some 3, 4⟩ 3
      ("password authentication failed") rfl rfl).2.1⟩

/-! ## Scaffolding for claim C8 -/

/-- Specification-side view: whether a probe outcome is a success. -/
def probeOk : ProbeOutcome → Bool
  | .ok _ _ => true
  | .fail _ _ => false

/-- Specification-side view: the response time of a probe (0 for a
failed probe, which contributes nothing to the success-filtered sum). -/
def probeElapsed : ProbeOutcome → Nat
  | .ok _ t => t
  | .fail _ _ => 0

/-- Specification-side success count over the first `n` probes. -/
def specSuccessCount (p : Nat → ProbeOutcome) (n : Nat) : Nat :=
  ((List.range n).filter (fun i => probeOk (p i))).length

/-- Specification-side total response time of the successful probes. -/
def specTotalTime (p : Nat → ProbeOutcome) (n : Nat) : Nat :=
  (((List.range n).filter (fun i => probeOk (p i))).map
    (fun i => probeElapsed (p i))).sum

theorem healthTraceGo_structure (d : Nat) :
    ∀ (n i : Nat), healthTraceGo d i (n + 1) =
      ((List.range' i n).flatMap
        (fun j => [HealthEvent.probe j, HealthEvent.delay d])) ++
        [HealthEvent.probe (i + n)] := by
  intro n
  induction n with
  | zero => intro i; rfl
  | succ n ih =>
    intro i
    show HealthEvent.probe i :: HealthEvent.delay d ::
        healthTraceGo d (i + 1) (n + 1) = _
    rw [ih (i + 1), List.range'_succ]
    simp [List.flatMap_cons, List.append_assoc, Nat.add_right_comm]
    omega

theorem healthTrace_structure (d n : Nat) (hn : 1 ≤ n) :
    healthTrace d n =
      ((List.range (n - 1)).flatMap
        (fun j => [HealthEvent.probe j, HealthEvent.delay d])) ++
        [HealthEvent.probe (n - 1)] := by
  obtain ⟨m, rfl⟩ : ∃ m, n = m + 1 := ⟨n - 1, by omega⟩
  rw [healthTrace, healthTraceGo_structure d m 0]
  simp [List.range_eq_range']

theorem healthResults_length (p : Nat → ProbeOutcome) (n : Nat) :
    (healthResults p n).length = n := by
  simp [healthResults]

theorem healthResults_getElem (p : Nat → ProbeOutcome) (n i : Nat)
    (h : i < n) :
    (healthResults p n)[i]? = some (probeRecord i (p i)) := by
  simp [healthResults, List.getElem?_range, h]

theorem healthResults_filter (p : Nat → ProbeOutcome) (n : Nat) :
    (healthResults p n).filter (fun r => r.success) =
      ((List.range n).filter (fun i => probeOk (p i))).map
        (fun i => probeRecord i (p i)) := by
  rw [healthResults, List.filter_map]
  congr 1
  apply List.filter_congr
  intro i _
  cases hpi : p i <;> simp [probeRecord, probeOk, hpi, Function.comp]

theorem successCount_spec (p : Nat → ProbeOutcome) (n : Nat) :
    ((healthResults p n).filter (fun r => r.success)).length =
      specSuccessCount p n := by
  rw [healthResults_filter]
  simp [specSuccessCount]

theorem filterMap_time (p : Nat → ProbeOutcome) :
    ∀ (l : List Nat), (∀ i ∈ l, probeOk (p i) = true) →
      ((l.map (fun i => probeRecord i (p i))).filterMap
        (fun r => r.responseTime)) = l.map (fun i => probeElapsed (p i)) := by
  intro l
  induction l with
  | nil => intro _; rfl
  | cons x l ih =>
    intro h
    have hx := h x (List.mem_cons_self x l)
    cases hpx : p x with
    | ok st t =>
      have hsome : (fun r : ProbeRecord => r.responseTime)
          (probeRecord x (p x)) = some t := by simp [hpx, probeRecord]
      have helap : probeElapsed (p x) = t := by simp [hpx, probeElapsed]
      rw [List.map_cons, List.filterMap_cons_some hsome,
        ih (fun i hi => h i (List.mem_cons_of_mem x hi)), List.map_cons, helap]
    | fail m st => rw [hpx] at hx; simp [probeOk] at hx

theorem totalTime_spec (p : Nat → ProbeOutcome) (n : Nat) :
    (((healthResults p n).filter (fun r => r.success)).filterMap
      (fun r => r.responseTime)).sum = specTotalTime p n := by
  rw [healthResults_filter, filterMap_time]
  · rfl
  · intro i hi
    exact (List.mem_filter.mp hi).2

/-- Claim C8 (confirmed).  A health check of `n ≥ 1` probes at interval
`d` issues exactly the schedule probe 0, delay d, probe 1, …, probe
(n-1): strictly sequential, one `d`-ms wait between consecutive probes
and none after the last; the results array records probe `i`'s outcome
at index `i`; and the handler returns a single non-error envelope whose
text aggregates the success count, the success rate
(`successCount / n * 100`) and the average response time of the
successful probes (0 when none succeeded). -/
theorem C8_health_check_loop :
    ∀ (env : ApiEnv) (args : ApiArgs) (n d : Nat),
      args.requests = some n → args.interval = some d → 1 ≤ n →
      (testEndpointHealth env args).2 =
        ((List.range (n - 1)).flatMap
          (fun j => [HealthEvent.probe j, HealthEvent.delay d])) ++
          [HealthEvent.probe (n - 1)]
      ∧ (healthResults env.probeGet n).length = n
      ∧ (∀ i, i < n →
          (healthResults env.probeGet n)[i]? =
            some (probeRecord i (env.probeGet i)))
      ∧ (testEndpointHealth env args).1.isError = none
      ∧ (testEndpointHealth env args).1.content.length = 1
      ∧ (testEndpointHealth env args).1 =
          ⟨[⟨("text"), healthText args.url n (healthResults env.probeGet n)
            (specSuccessCount env.probeGet n)
            ((specSuccessCount env.probeGet n : ℚ) / (n : ℚ) * 100)
            (if specSuccessCount env.probeGet n = 0 then 0
             else (specTotalTime env.probeGet n : ℚ) /
               (specSuccessCount env.probeGet n : ℚ))⟩], none⟩ := by
  intro env args n d hreq hint hn
  refine ⟨?_, healthResults_length _ _, ?_, ?_, ?_, ?_⟩
  · simp only [testEndpointHealth, hreq, hint, Option.getD_some]
    exact healthTrace_structure d n hn
  · intro i hi
    exact healthResults_getElem env.probeGet n i hi
  · simp [testEndpointHealth]
  · simp [testEndpointHealth]
  · simp only [testEndpointHealth, hreq, hint, Option.getD_some]
    rw [successCount_spec, totalTime_spec]

/-- Claim C8, witness: three probes (the second failing) at a 50 ms
interval. -/
theorem C8_witness :
    (testEndpointHealth sampleApiEnv
      {requests := some 3, interval := some 50}).2 =
      ((List.range 2).flatMap
        (fun j => [HealthEvent.probe j, HealthEvent.delay 50])) ++
        [HealthEvent.probe 2]
  ∧ (testEndpointHealth sampleApiEnv
      {requests := some 3, interval := some 50}).1.isError = none :=
  ⟨(C8_health_check_loop sampleApiEnv {requests := some 3, interval := some 50}
      3 50 rfl rfl (by norm_num)).1,
   (C8_health_check_loop sampleApiEnv {requests := some 3, interval := some 50}
      3 50 rfl rfl (by norm_num)).2.2.2.1⟩

/-! ## Scaffolding for claim C9 -/

theorem sanitize_ok_iff (s t : String) :
    sanitizeIdentifier s = .ok t ↔ (isValidIdentifier s = true ∧ t = s) := by
  unfold sanitizeIdentifier
  by_cases h : isValidIdentifier s <;> simp [h, eq_comm]

theorem sanitize_error_of (s : String) (h : isValidIdentifier s = false) :
    sanitizeIdentifier s = .error (.plain (("Invalid identifier: ") ++ s)) := by
  simp [sanitizeIdentifier, h]

theorem columnDef_ok_valid (c : PgColumn) (b : String)
    (h : columnDef c = .ok b) : isValidIdentifier c.name = true := by
  unfold columnDef at h
  cases hs : sanitizeIdentifier c.name with
  | error e => rw [hs] at h; simp [Except.map] at h
  | ok t => exact ((sanitize_ok_iff _ _).mp hs).1

theorem setPart_ok_valid (ik : Nat × String) (b : String)
    (h : ((sanitizeIdentifier ik.2).map
      (fun n => n ++ (" = $") ++ toString (ik.1 + 1))) = .ok b) :
    isValidIdentifier ik.2 = true := by
  cases hs : sanitizeIdentifier ik.2 with
  | error e => rw [hs] at h; simp [Except.map] at h
  | ok t => exact ((sanitize_ok_iff _ _).mp hs).1

/-- Claim C9 (confirmed).  `sanitizeIdentifier` returns its input
unchanged exactly when it matches `^[a-zA-Z_][a-zA-Z0-9_]*$` and throws
otherwise (conjuncts 1–3); in `create_table`, `crud_operations` and
`drop_table` every caller-supplied table or column identifier passes it
before being interpolated: an invalid identifier makes the call fail
with an error and an empty SQL event list (conjuncts 4, 5, 7, 8, 10),
and whenever a SQL statement is actually sent, every interpolated
identifier satisfies the allow-list (conjuncts 6, 9, 11). -/
theorem C9_identifier_sanitization :
    (∀ s : String, sanitizeIdentifier s = .ok s ↔ isValidIdentifier s = true)
  ∧ (∀ s t : String, sanitizeIdentifier s = .ok t → t = s)
  ∧ (∀ s : String, isValidIdentifier s = false →
      sanitizeIdentifier s = .error (.plain (("Invalid identifier: ") ++ s)))
  ∧ (∀ (env : PgEnv) (tn : String) (cols : Option (List PgColumn))
      (opts : Option String) (s : PgState) (p : Nat),
      s.pool = some p → isValidIdentifier tn = false →
      createTable env (some tn) cols opts s =
        (.error (wrapCreateErr (.plain (("Invalid identifier: ") ++ tn))), []))
  ∧ (∀ (env : PgEnv) (tn : String) (cols : List PgColumn)
      (opts : Option String) (s : PgState) (p : Nat) (c : PgColumn),
      s.pool = some p → c ∈ cols → isValidIdentifier c.name = false →
      ∃ e, createTable env (some tn) (some cols) opts s = (.error e, []))
  ∧ (∀ (env : PgEnv) (tnO : Option String) (colsO : Option (List PgColumn))
      (opts : Option String) (s : PgState) (pe : Nat) (q : Option String)
      (pp : List JsPrim),
      PgEvent.query pe q pp ∈ (createTable env tnO colsO opts s).2 →
      isValidIdentifier (tnO.getD ("undefined")) = true
      ∧ ∀ c ∈ colsO.getD [], isValidIdentifier c.name = true)
  ∧ (∀ (env : PgEnv) (args : PgArgs) (s : PgState) (p : Nat),
      s.pool = some p →
      isValidIdentifier (args.tableName.getD ("undefined")) = false →
      crudOperations env args s =
        (.error (.plain (("Invalid identifier: ") ++
          (args.tableName.getD ("undefined")))), []))
  ∧ (∀ (env : PgEnv) (args : PgArgs) (s : PgState) (p : Nat) (k : String),
      s.pool = some p →
      isValidIdentifier (args.tableName.getD ("undefined")) = true →
      (args.operation = some ("insert") ∨ args.operation = some ("update")) →
      k ∈ (args.data.getD []).map Prod.fst → isValidIdentifier k = false →
      ∃ e, crudOperations env args s = (.error e, []))
  ∧ (∀ (env : PgEnv) (args : PgArgs) (s : PgState) (pe : Nat)
      (q : Option String) (pp : List JsPrim),
      PgEvent.query pe q pp ∈ (crudOperations env args s).2 →
      isValidIdentifier (args.tableName.getD ("undefined")) = true
      ∧ ((args.operation = some ("insert") ∨ args.operation = some ("update")) →
          ∀ k ∈ (args.data.getD []).map Prod.fst, isValidIdentifier k = true))
  ∧ (∀ (env : PgEnv) (tnO : Option String) (casc : Option Bool) (s : PgState)
      (p : Nat),
      s.pool = some p →
      isValidIdentifier (tnO.getD ("undefined")) = false →
      dropTable env tnO casc s =
        (.error (.mcp ⟨.internalError, ("Failed to drop table: ") ++
          (("Invalid identifier: ") ++ (tnO.getD ("undefined")))⟩), []))
  ∧ (∀ (env : PgEnv) (tnO : Option String) (casc : Option Bool) (s : PgState)
      (pe : Nat) (q : Option String) (pp : List JsPrim),
      PgEvent.query pe q pp ∈ (dropTable env tnO casc s).2 →
      isValidIdentifier (tnO.getD ("undefined")) = true) := by
  refine ⟨?_, ?_, ?_, ?_, ?_, ?_, ?_, ?_, ?_, ?_, ?_⟩
  · intro s
    constructor
    · intro h; exact ((sanitize_ok_iff s s).mp h).1
    · intro h; exact (sanitize_ok_iff s s).mpr ⟨h, rfl⟩
  · intro s t h
    exact ((sanitize_ok_iff s t).mp h).2
  · intro s h
    exact sanitize_error_of s h
  · intro env tn cols opts s p hp hv
    simp [createTable, hp, sanitize_error_of tn hv]
  · intro env tn cols opts s p c hp hc hbad
    cases hsan : sanitizeIdentifier tn with
    | error e => exact ⟨wrapCreateErr e, by simp [createTable, hp, hsan]⟩
    | ok tn' =>
      obtain ⟨e, he⟩ := mapEx_error_of_invalid columnDef cols c hc
        (fun b hb => absurd (columnDef_ok_valid c b hb) (by simp [hbad]))
      exact ⟨wrapCreateErr e, by simp [createTable, hp, hsan, he]⟩
  · intro env tnO colsO opts s pe q pp hmem
    simp only [createTable] at hmem
    cases hpool : s.pool with
    | none => simp only [hpool] at hmem; simp at hmem
    | some p =>
      simp only [hpool] at hmem
      cases hsan : sanitizeIdentifier (tnO.getD ("undefined")) with
      | error e => simp only [hsan] at hmem; simp at hmem
      | ok tn =>
        simp only [hsan] at hmem
        refine ⟨((sanitize_ok_iff _ _).mp hsan).1, ?_⟩
        cases colsO with
        | none => simp at hmem
        | some cols =>
          cases hmap : mapEx columnDef cols with
          | error e => simp only [hmap] at hmem; simp at hmem
          | ok defs =>
            intro c hcmem
            exact mapEx_ok_forall columnDef
              (fun c => isValidIdentifier c.name = true)
              (fun a b hab => columnDef_ok_valid a b hab) cols defs hmap c hcmem
  · intro env args s p hp hv
    simp [crudOperations, hp, sanitize_error_of _ hv]
  · intro env args s p k hp htn hop hk hbad
    have hdat_ne : args.data.getD [] ≠ [] := by
      intro habs
      rw [habs] at hk
      simp at hk
    have hempty : (args.data.getD []).isEmpty = false := by
      simp [List.isEmpty_iff, hdat_ne]
    have hsan : sanitizeIdentifier (args.tableName.getD ("undefined")) =
        .ok (args.tableName.getD ("undefined")) :=
      (sanitize_ok_iff _ _).mpr ⟨htn, rfl⟩
    rcases hop with hop | hop
    · obtain ⟨e, he⟩ := mapEx_error_of_invalid sanitizeIdentifier
        ((args.data.getD []).map Prod.fst) k hk
        (fun b hb => absurd ((sanitize_ok_iff _ _).mp hb).1 (by simp [hbad]))
      refine ⟨wrapCrudErr e, ?_⟩
      simp [crudOperations, hp, hsan, hop, crudInsert, hempty, he]
    · by_cases hw : (args.whereClause.getD ("")) = ("")
      · refine ⟨wrapCrudErr (.mcp ⟨.invalidParams,
          ("WHERE clause is required for update operation")⟩), ?_⟩
        simp [crudOperations, hp, hsan, hop, crudUpdate, hempty, hw]
      · have hk2 : k ∈ (((args.data.getD []).map Prod.fst).enum).map Prod.snd := by
          rw [List.enum_map_snd]
          exact hk
        obtain ⟨ik, hikmem, hik2⟩ := List.mem_map.mp hk2
        obtain ⟨e, he⟩ := mapEx_error_of_invalid
          (fun ik : Nat × String => (sanitizeIdentifier ik.2).map
            (fun n => n ++ (" = $") ++ toString (ik.1 + 1)))
          (((args.data.getD []).map Prod.fst).enum) ik hikmem
          (fun b hb => absurd (setPart_ok_valid ik b hb)
            (by rw [hik2]; simp [hbad]))
        refine ⟨wrapCrudErr e, ?_⟩
        simp [crudOperations, hp, hsan, hop, crudUpdate, hempty, hw, he]
  · intro env args s pe q pp hmem
    simp only [crudOperations] at hmem
    cases hpool : s.pool with
    | none => simp only [hpool] at hmem; simp at hmem
    | some p =>
      simp only [hpool] at hmem
      cases hsan : sanitizeIdentifier (args.tableName.getD ("undefined")) with
      | error e => simp only [hsan] at hmem; simp at hmem
      | ok tn =>
        simp only [hsan] at hmem
        refine ⟨((sanitize_ok_iff _ _).mp hsan).1, ?_⟩
        intro hop k hk
        rcases hop with hop | hop
        · simp only [hop] at hmem
          simp only [crudInsert] at hmem
          cases hempty : (args.data.getD []).isEmpty with
          | true => simp [hempty] at hmem
          | false =>
            simp only [hempty] at hmem
            cases hmap : mapEx sanitizeIdentifier
                ((args.data.getD []).map Prod.fst) with
            | error e => simp [hmap] at hmem
            | ok cols =>
              exact mapEx_ok_forall sanitizeIdentifier
                (fun x => isValidIdentifier x = true)
                (fun a b hab => ((sanitize_ok_iff _ _).mp hab).1)
                _ cols hmap k hk
        · simp only [hop] at hmem
          simp only [crudUpdate] at hmem
          cases hempty : (args.data.getD []).isEmpty with
          | true => simp [hempty] at hmem
          | false =>
            simp only [hempty] at hmem
            by_cases hw : (args.whereClause.getD ("")) = ("")
            · simp [hw] at hmem
            · cases hmap : mapEx
                  (fun ik : Nat × String => (sanitizeIdentifier ik.2).map
                    (fun n => n ++ (" = $") ++ toString (ik.1 + 1)))
                  (((args.data.getD []).map Prod.fst).enum) with
              | error e => simp [hw, hmap] at hmem
              | ok setParts =>
                have hkeys := mapEx_ok_forall
                  (fun ik : Nat × String => (sanitizeIdentifier ik.2).map
                    (fun n => n ++ (" = $") ++ toString (ik.1 + 1)))
                  (fun ik => isValidIdentifier ik.2 = true)
                  (fun a b hab => setPart_ok_valid a b hab)
                  _ setParts hmap
                have hk2 : k ∈ (((args.data.getD []).map Prod.fst).enum).map
                    Prod.snd := by
                  rw [List.enum_map_snd]
                  exact hk
                obtain ⟨ik, hikmem, hik2⟩ := List.mem_map.mp hk2
                rw [← hik2]
                exact hkeys ik hikmem
  · intro env tnO casc s p hp hv
    simp [dropTable, hp, sanitize_error_of _ hv, JsError.message]
  · intro env tnO casc s pe q pp hmem
    simp only [dropTable] at hmem
    cases hpool : s.pool with
    | none => simp only [hpool] at hmem; simp at hmem
    | some p =>
      simp only [hpool] at hmem
      cases hsan : sanitizeIdentifier (tnO.getD ("undefined")) with
      | error e => simp only [hsan] at hmem; simp at hmem
      | ok tn => exact ((sanitize_ok_iff _ _).mp hsan).1

/-- Claim C9, witness: a valid identifier passes unchanged; a table name
with a space is rejected by `crud_operations` with no SQL sent; an
injection-shaped table name is rejected by `drop_table` with no SQL
sent. -/
theorem C9_witness :
    sanitizeIdentifier ("users") = .ok ("users")
  ∧ crudOperations samplePgEnv
      {operation := some ("insert"), tableName := some ("bad name"),
        data := some [(("col"), .str ("v"))]} ⟨some 2, 3⟩ =
      (.error (.plain (("Invalid identifier: ") ++ ("bad name"))), [])
  ∧ dropTable samplePgEnv (some ("users; DROP TABLE x")) none ⟨some 2, 3⟩ =
      (.error (.mcp ⟨.internalError, ("Failed to drop table: ") ++
        (("Invalid identifier: ") ++ ("users; DROP TABLE x"))⟩), []) :=
  ⟨(C9_identifier_sanitization.1 ("users")).mpr (by decide),
   C9_identifier_sanitization.2.2.2.2.2.2.1 samplePgEnv
     {operation := some ("insert"), tableName := some ("bad name"),
       data := some [(("col"), .str ("v"))]} ⟨some 2, 3⟩ 2 rfl (by decide),
   C9_identifier_sanitization.2.2.2.2.2.2.2.2.2.1 samplePgEnv
     (some ("users; DROP TABLE x")) none ⟨some 2, 3⟩ 2 rfl (by decide)⟩
